import Mathlib

set_option maxRecDepth 8000

/-!
Verification development for the `gap_filling.data_handler` module of the
climate-trace-metamodeling repository.  The Python source is shallowly
embedded: pure query/statement construction becomes Lean string functions,
the per-row insert loop of `write_data` becomes an explicit event trace, and
database / exception nondeterminism is an oracle parameter.
-/

namespace DataHandlerModel

/-! ## String utilities mirroring Python primitives -/

/-- Boolean substring test on character lists: `subOf pat l` is true iff
`pat` occurs contiguously inside `l`.  Mirrors Python's `in` on strings. -/
def subOf (pat : List Char) : List Char → Bool
  | [] => pat.isEmpty
  | c :: rest => pat.isPrefixOf (c :: rest) || subOf pat rest

/-- Python `'pat' in s` for strings. -/
def strContains (s pat : String) : Bool := subOf pat.data s.data

/-- Python slice `s[:-n]`: drop the last `n` characters (clamping at empty). -/
def pySliceDropRight (n : Nat) (s : String) : String :=
  ⟨s.data.take (s.data.length - n)⟩

/-- Python `s.split(c)` for a one-character separator, over the character
list: split at every occurrence, `"".split(c) = [""]`. -/
def splitOnChar (c : Char) : List Char → List (List Char)
  | [] => [[]]
  | a :: rest =>
    let r := splitOnChar c rest
    if a = c then [] :: r
    else
      match r with
      | [] => [[a]]
      | s :: ss => (a :: s) :: ss

/-! ## `load_data` (data_handler.py lines 53-79)

The three SQL texts are transcribed verbatim from the `curs.execute` calls.
The issued query depends only on whether a gas filter is given and on
`is_co2e`; the gas value itself is passed as a parameter, never spliced into
the SQL text. -/

/-- Query issued when `gas is None` (lines 58-62). -/
def query_no_gas : String :=
  "SELECT original_inventory_sector, reporting_entity, iso3_country, " ++
  "gas, emissions_quantity, emissions_quantity_units, start_time " ++
  "FROM country_emissions WHERE reporting_entity = %s AND start_time >= %s " ++
  "AND gas != 'co2e_100yr' AND gas != 'co2e_20yr'"

/-- Query issued when a gas is given and `is_co2e` is false (lines 65-69). -/
def query_gas_not_co2e : String :=
  "SELECT original_inventory_sector, reporting_entity, " ++
  "gas, emissions_quantity, emissions_quantity_units, start_time " ++
  "FROM country_emissions WHERE reporting_entity = %s AND gas = %s " ++
  "AND start_time >= %s AND gas != 'co2e_100yr' AND gas != 'co2e_20yr'"

/-- Query issued when a gas is given and `is_co2e` is true (lines 71-75). -/
def query_gas_co2e : String :=
  "SELECT original_inventory_sector, reporting_entity, " ++
  "gas, emissions_quantity, emissions_quantity_units, start_time " ++
  "FROM country_emissions WHERE reporting_entity = %s AND gas = %s " ++
  "AND start_time >= %s"

/-- A calendar date, as `datetime.date(y, m, d)`. -/
structure PyDate where
  year : Nat
  month : Nat
  day : Nat
deriving DecidableEq, Repr

/-- Default `start_date` argument of `load_data`: `datetime.date(2013, 1, 1)`. -/
def default_start_date : PyDate := ⟨2013, 1, 1⟩

/-- A query parameter as bound by the driver. -/
inductive QueryParam where
  | str (s : String)
  | date (d : PyDate)
deriving DecidableEq, Repr

/-- The SQL text and bound parameters issued by `load_data`
(the branch structure of lines 57-75). -/
def load_data_query (source : String) (gas : Option String) (is_co2e : Bool)
    (start_date : PyDate) : String × List QueryParam :=
  match gas with
  | none => (query_no_gas, [.str source, .date start_date])
  | some g =>
    if ¬is_co2e then
      (query_gas_not_co2e, [.str source, .str g, .date start_date])
    else
      (query_gas_co2e, [.str source, .str g, .date start_date])

/-! ## `get_ghgs` (data_handler.py lines 81-91) -/

/-- Python truthiness of the `f_gas` argument (`None` and `""` are falsy). -/
def truthy : Option String → Bool
  | none => false
  | some s => s ≠ ""

/-- The three query texts of `get_ghgs`, tagged by branch. -/
inductive GhgsQuery where
  | byCategory
  | allCategories
  | defaultLookup
deriving DecidableEq, Repr

/-- Branch selection of `get_ghgs` (lines 83-88): `if f_gas: ...
elif f_gas == 'all': ... else: ...`. -/
def get_ghgs_branch (f_gas : Option String) : GhgsQuery :=
  if truthy f_gas then .byCategory
  else if f_gas = some "all" then .allCategories
  else .defaultLookup

/-- SQL text of each `get_ghgs` branch, transcribed from lines 84, 86, 88. -/
def get_ghgs_sql : GhgsQuery → String
  | .byCategory => "SELECT * FROM ghgs WHERE f_gas_category = %s"
  | .allCategories => "SELECT * FROM ghgs WHERE f_gas_category is NOT NULL"
  | .defaultLookup =>
    "SELECT lower_designation as gas, gwp_20yr as co2e_20, gwp_100yr as co2e_100 FROM ghgs"

/-! ## `write_data` (data_handler.py lines 160-191)

A table (pandas `DataFrame`) is a list of rows; a row is an association list
from column name to value, in column order.  Database effects and the
exceptions the driver may raise are an oracle `outcomes : Nat → ExecOutcome`
giving the result of `curs.execute` for each (positional) row index. -/

/-- A table row: association list from column name to value. -/
abbrev Row := List (String × String)

/-- Pandas column assignment `df['col'] = v`: overwrite the column if present,
else append it as a new column, for every row. -/
def setCol (col v : String) (r : Row) : Row :=
  if r.any (fun p => p.1 = col) then
    r.map (fun p => if p.1 = col then (p.1, v) else p)
  else r ++ [(col, v)]

/-- Python dict assignment `m[k] = v`: overwrite in place if the key exists,
else append (insertion order). -/
def dictSet (k v : String) (m : List (String × String)) : List (String × String) :=
  if m.any (fun p => p.1 = k) then
    m.map (fun p => if p.1 = k then (p.1, v) else p)
  else m ++ [(k, v)]

/-- The module-level `INSERT_MAPPING` dictionary (lines 12-15), in insertion
order. -/
def INSERT_MAPPING : List (String × String) :=
  [("ois", "original_inventory_sector"),
   ("i3c", "iso3_country"), ("re", "reporting_entity"), ("g", "gas"),
   ("eq", "emissions_quantity"), ("equ", "emissions_quantity_units"),
   ("st", "start_time"), ("et", "end_time"), ("cd", "created_date")]

/-- The `insert_str` assigned for `rows_type == "climate-trace"`
(lines 165-168). -/
def ct_insert_str : String :=
  "INSERT INTO country_emissions (original_inventory_sector, iso3_country, " ++
  "reporting_entity, gas, emissions_quantity, emissions_quantity_units, " ++
  "start_time, end_time, created_date) " ++
  "VALUES (%(ois)s, %(i3c)s, %(re)s, %(g)s, %(eq)s, %(equ)s, %(st)s, %(et)s, %(cd)s)"

/-- The `insert_str` assigned for `rows_type == "edgar"` (lines 173-176). -/
def edgar_insert_str : String :=
  "INSERT INTO country_emissions (original_inventory_sector, iso3_country, " ++
  "reporting_entity, gas, emissions_quantity, emissions_quantity_units, " ++
  "measurement_method_doi_or_url, start_time, end_time) " ++
  "VALUES (%(ois)s, %(i3c)s, %(re)s, %(g)s, %(eq)s, %(equ)s, %(mmd)s, %(st)s, %(et)s)"

/-- An exception raised inside the `try` block of the per-row loop. -/
inductive PyExc where
  /-- A psycopg2 database error, carrying its `pgerror` attribute
  (which may itself be `None`). -/
  | pgErr (pgerror : Option String)
  /-- Any other exception (it has no `pgerror` attribute); in particular the
  `UnboundLocalError` raised by evaluating an unassigned `insert_str`. -/
  | otherExc (name : String)
deriving DecidableEq, Repr

/-- An error that propagates out of `write_data` to the caller. -/
inductive PyError where
  /-- `AttributeError`, raised inside the `except` handler itself when the
  caught exception has no `pgerror` attribute or when `pgerror` is `None`. -/
  | attributeError
  /-- `IndexError`, raised by `t.split(':')[1]` when the message has no colon. -/
  | indexError
  /-- `KeyError`, raised when a row lacks a column named by the mapping. -/
  | keyError (k : String)
  /-- An exception propagating uncaught out of the loop body. -/
  | exc (e : PyExc)
deriving DecidableEq, Repr

/-- Result of one `curs.execute(insert_str, data_row_dict)` call, decided by
the database. -/
inductive ExecOutcome where
  | ok
  | raises (e : PyExc)
deriving DecidableEq, Repr

/-- Fate of one iteration of the per-row loop. -/
inductive RowOutcome where
  /-- Control reaches `self.conn.commit()` and the loop continues. -/
  | committed
  /-- The `continue` for a duplicate: no commit, loop continues. -/
  | skipped
  /-- An error propagates, aborting the loop and the whole call. -/
  | raised (e : PyError)
deriving DecidableEq, Repr

/-- The `except Exception as e` handler (lines 186-190):
`t = e.pgerror`; `if 'duplicate' in t.split(':')[1]: continue`;
falling out of the handler resumes at `self.conn.commit()`. -/
def handleExc : PyExc → RowOutcome
  | .otherExc _ => .raised .attributeError
  | .pgErr none => .raised .attributeError
  | .pgErr (some s) =>
    match (splitOnChar ':' s.data).drop 1 with
    | [] => .raised .indexError
    | seg :: _ =>
      if subOf "duplicate".data seg then .skipped
      else .committed

/-- One `try`/`except` iteration body: evaluating an unassigned `insert_str`
raises `UnboundLocalError` inside the `try`; otherwise the execute outcome
decides, with any exception routed through the handler. -/
def rowStep (insert_str : Option String) (out : ExecOutcome) : RowOutcome :=
  match insert_str with
  | none => handleExc (.otherExc "UnboundLocalError")
  | some _ =>
    match out with
    | .ok => .committed
    | .raises e => handleExc e

/-- `data_row_dict = {k: dti[1][INSERT_MAPPING[k]] for k in
INSERT_MAPPING.keys()}` (line 183); a missing column raises `KeyError`
(outside the `try`, so it propagates). -/
def buildRowDict (mapping : List (String × String)) (r : Row) :
    Except PyError (List (String × String)) :=
  mapping.foldr
    (fun p acc =>
      match r.lookup p.2, acc with
      | none, _ => .error (.keyError p.2)
      | some v, .ok d => .ok ((p.1, v) :: d)
      | some _, .error e => .error e)
    (.ok [])

/-- Observable events of one `write_data` call, in program order. -/
inductive Event where
  /-- Line 162: the in-place `created_date` column assignment. -/
  | stampCreatedDate
  /-- Line 178: `curs = self.get_cursor()`. -/
  | getCursor
  /-- `curs.execute` attempted for row `i`. -/
  | execInsert (i : Nat)
  /-- `self.conn.commit()` reached for row `i`. -/
  | commit (i : Nat)
  /-- The duplicate `continue` taken for row `i`. -/
  | skipDuplicate (i : Nat)
deriving DecidableEq, Repr

/-- The per-row loop (lines 181-191) over indexed rows: build the row dict,
attempt the insert, run the handler; a raised error aborts the rest. -/
def writeLoop (mapping : List (String × String)) (insert_str : Option String)
    (outcomes : Nat → ExecOutcome) :
    List (Nat × Row) → List Event × Option PyError
  | [] => ([], none)
  | (i, r) :: rest =>
    match buildRowDict mapping r with
    | .error e => ([], some e)
    | .ok _ =>
      match rowStep insert_str (outcomes i) with
      | .committed =>
        let res := writeLoop mapping insert_str outcomes rest
        (.execInsert i :: .commit i :: res.1, res.2)
      | .skipped =>
        let res := writeLoop mapping insert_str outcomes rest
        (.execInsert i :: .skipDuplicate i :: res.1, res.2)
      | .raised e => ([.execInsert i], some e)

/-- Result of one `write_data` call: the event trace, the mutated input
table, the (possibly polluted) module-level mapping, and the propagated
error, if any. -/
structure WriteResult where
  trace : List Event
  table : List Row
  mapping : List (String × String)
  error : Option PyError
deriving Repr

/-- `DataHandler.write_data(data_to_insert, rows_type)` (lines 160-191).
`mapping` is the current state of the module-level `INSERT_MAPPING`;
`now` is `datetime.datetime.now().isoformat()` at the call. -/
def write_data (mapping : List (String × String)) (data_to_insert : List Row)
    (rows_type : Option String) (now : String)
    (outcomes : Nat → ExecOutcome) : WriteResult :=
  let table := data_to_insert.map (setCol "created_date" now)
  let mapping2 :=
    if rows_type = some "edgar" then
      dictSet "mmd" "measurement_method_doi_or_url" mapping
    else mapping
  let insert_str : Option String :=
    if rows_type = some "climate-trace" then some ct_insert_str
    else if rows_type = some "edgar" then some edgar_insert_str
    else none
  let res := writeLoop mapping2 insert_str outcomes table.enum
  { trace := .stampCreatedDate :: .getCursor :: res.1
    table := table
    mapping := mapping2
    error := res.2 }

/-! ## `insert_with_update` (data_handler.py lines 93-158)

Rows are chunked in slices of `cs = 1000`; for each chunk one multi-row
`INSERT ... ON CONFLICT ... DO UPDATE` statement is built from the chunk's
first row's keys, executed and committed.  The statement pieces are
transcribed from the f-strings of lines 121-156 (the long runs of indentation
padding inside the triple-quoted f-string of lines 150-156 are normalized to
single spaces, which the claims do not depend on). -/

/-- Python dict `.pop(k)` on a key list: remove the (unique) key, or `none`
for the `KeyError` raised when the key is absent. -/
def popKey (k : String) (cols : List String) : Option (List String) :=
  if k ∈ cols then some (cols.erase k) else none

/-- Fuel-driven worker for the chunking loop; the fuel only bounds the
recursion depth (one unit per chunk) and never runs out when it starts at
the list's length. -/
def chunksFuel : Nat → List Row → List (List Row)
  | _, [] => []
  | 0, _ :: _ => []
  | n + 1, a :: l => ((a :: l).take 1000) :: chunksFuel n ((a :: l).drop 1000)

/-- The chunking `for i in range(0, len(data_dict), cs): data_dict[i:i+cs]`
with `cs = 1000` (lines 96-99). -/
def chunks1000 (l : List Row) : List (List Row) := chunksFuel l.length l

/-- The `set_statement` loop of lines 121-126: every column of the first row
except `created_date` is assigned its `excluded` value, then a
`modified_date = NOW()` stamp is appended. -/
def set_statement (cols : List String) : String :=
  (cols.foldl
    (fun acc d =>
      if d = "created_date" then acc
      else acc ++ " " ++ d ++ " = excluded." ++ d ++ ",")
    "") ++ " modified_date = NOW()"

/-- The `where_statement` loop of lines 129-135 over the keys of
`base_where` (first row minus `created_date` and `emissions_quantity`):
equality per column, `ST_AsText` on both sides for `location`, trailing
`"AND"` sliced off. -/
def where_statement (table : String) (baseWhere : List String) : String :=
  pySliceDropRight 3
    (baseWhere.foldl
      (fun acc d =>
        if d = "location" then
          acc ++ " ST_AsText(" ++ table ++ "." ++ d ++ ") = ST_AsText(excluded." ++ d ++ ") AND"
        else
          acc ++ " " ++ table ++ "." ++ d ++ " = excluded." ++ d ++ " AND")
      "")

/-- The `and_statement` loop of lines 138-146 over the keys of `base_and`
(first row minus `created_date`): inequality per column, `ST_AsText` for
`location`, `coalesce(..., 0.0)` for `emissions_quantity`, trailing `"OR"`
sliced off and a closing parenthesis appended. -/
def and_statement (table : String) (baseAnd : List String) : String :=
  pySliceDropRight 2
    (baseAnd.foldl
      (fun acc d =>
        if d = "location" then
          acc ++ " ST_AsText(" ++ table ++ "." ++ d ++ ") != ST_AsText(excluded." ++ d ++ ") OR"
        else if d = "emissions_quantity" then
          acc ++ " coalesce(" ++ table ++ "." ++ d ++ ", 0.0) != excluded." ++ d ++ " OR"
        else
          acc ++ " " ++ table ++ "." ++ d ++ " != excluded." ++ d ++ " OR")
      "(") ++ ")"

/-- Model of `cur.mogrify(f"({sss})", x)`: the driver renders one value
tuple as a parenthesized comma-separated list (literal quoting abstracted). -/
def mogrify (vs : List String) : String :=
  "(" ++ String.intercalate "," vs ++ ")"

/-- One executed-and-committed batch statement of `insert_with_update`. -/
structure Batch where
  /-- `data[0].keys()`: column order of the chunk's first row. -/
  cols : List String
  /-- The value tuples, one per row of the chunk, in key order. -/
  vals : List (List String)
  /-- `','.join(data[0].keys())`. -/
  insert_cols : String
  /-- `sss`: the placeholder list `%s,...,%s`. -/
  placeholders : String
  set_stmt : String
  where_stmt : String
  and_stmt : String
  /-- The assembled `insert_str` f-string. -/
  stmt : String
deriving DecidableEq, Repr

/-- Build the statement for one chunk (lines 100-156).  `none` models the
`KeyError` raised by `base_select.pop` / `base_where.pop` / `base_and.pop`
when the first row lacks `created_date` or `emissions_quantity`. -/
def buildBatch (table : String) (chunk : List Row) : Option Batch :=
  match chunk with
  | [] => none
  | d0 :: _ =>
    let cols := d0.map Prod.fst
    match popKey "created_date" cols with
    | none => none
    | some colsNoCd =>
      match popKey "emissions_quantity" colsNoCd with
      | none => none
      | some baseWhere =>
        let vals := chunk.map (fun d => d.map Prod.snd)
        let sss := String.intercalate "," (cols.map (fun _ => "%s"))
        let args_str := String.intercalate "," (vals.map mogrify)
        some
          { cols := cols
            vals := vals
            insert_cols := String.intercalate "," cols
            placeholders := sss
            set_stmt := set_statement cols
            where_stmt := where_statement table baseWhere
            and_stmt := and_statement table colsNoCd
            stmt :=
              "INSERT INTO " ++ table ++ " (" ++ String.intercalate "," cols ++ ")\n" ++
              " VALUES " ++ args_str ++ "\n" ++
              " ON CONFLICT ON CONSTRAINT country_duplicates DO UPDATE \n" ++
              " SET " ++ set_statement cols ++ "\n" ++
              " WHERE " ++ where_statement table baseWhere ++ "\n" ++
              " AND " ++ and_statement table colsNoCd ++ "\n" }

/-- Build one batch per chunk; `none` as soon as a chunk raises. -/
def mapBatches (table : String) : List (List Row) → Option (List Batch)
  | [] => some []
  | c :: cs =>
    match buildBatch table c, mapBatches table cs with
    | some b, some bs => some (b :: bs)
    | _, _ => none

/-- `DataHandler.insert_with_update(e_data, table)`: one batch statement per
chunk of 1000 input rows, each executed and committed (lines 157-158);
`none` models a `KeyError` propagating from a chunk. -/
def insert_with_update (e_data : List Row) (table : String) :
    Option (List Batch) :=
  mapBatches table (chunks1000 e_data)

/-! ## Specification-side definitions

These follow the words of the specification (and its amended claims) rather
than the code, to be compared with the code-side builders above. -/

/-- Concatenate a list of strings. -/
def strJoin : List String → String
  | [] => ""
  | s :: rest => s ++ strJoin rest

/-- Render a list of clauses joined by a separator (an n-ary conjunction or
disjunction, or a comma-separated list). -/
def conjoin (sep : String) : List String → String
  | [] => ""
  | [c] => c
  | c :: cs => c ++ sep ++ conjoin sep cs

/-- Spec: equality between the existing and incoming value of a column, the
`location` column compared via `ST_AsText` on both sides. -/
def spec_eq_clause (table d : String) : String :=
  if d = "location" then
    "ST_AsText(" ++ table ++ "." ++ d ++ ") = ST_AsText(excluded." ++ d ++ ")"
  else
    table ++ "." ++ d ++ " = excluded." ++ d

/-- Spec: inequality between the existing and incoming value of a column,
`location` via `ST_AsText`, `emissions_quantity` null-coalesced to `0.0`. -/
def spec_neq_clause (table d : String) : String :=
  if d = "location" then
    "ST_AsText(" ++ table ++ "." ++ d ++ ") != ST_AsText(excluded." ++ d ++ ")"
  else if d = "emissions_quantity" then
    "coalesce(" ++ table ++ "." ++ d ++ ", 0.0) != excluded." ++ d
  else
    table ++ "." ++ d ++ " != excluded." ++ d

/-- Spec: the SET list assigns every column except `created_date` to its
incoming (`excluded`) value, plus a `modified_date = NOW()` stamp. -/
def spec_set_statement (cols : List String) : String :=
  " " ++ conjoin ", "
    (((cols.filter (fun d => d != "created_date")).map
        (fun d => d ++ " = excluded." ++ d)) ++ ["modified_date = NOW()"])

/-- Spec: the WHERE clause is the conjunction, over every column except
`created_date` and `emissions_quantity`, of existing/incoming equality. -/
def spec_where_statement (table : String) (cols : List String) : String :=
  " " ++ conjoin " AND "
    ((cols.filter (fun d => d != "created_date" && d != "emissions_quantity")).map
      (spec_eq_clause table)) ++ " "

/-- Spec: the AND clause is the disjunction, over every column except
`created_date`, of existing/incoming inequality. -/
def spec_and_statement (table : String) (cols : List String) : String :=
  "( " ++ conjoin " OR "
    ((cols.filter (fun d => d != "created_date")).map (spec_neq_clause table)) ++ " )"

/-- Amended-claim classification: a duplicate-style execute outcome, i.e. a
database error whose `pgerror` message has a colon and whose segment after
the first colon contains `"duplicate"`; such a row is skipped without a
commit and the loop continues. -/
def isDupOutcome : ExecOutcome → Bool
  | .raises (.pgErr (some s)) =>
    match (splitOnChar ':' s.data).drop 1 with
    | seg :: _ => subOf "duplicate".data seg
    | [] => false
  | _ => false

/-- Amended-claim classification: an outcome whose handling itself raises a
secondary error and aborts the loop — an exception with no `pgerror`
attribute, with `pgerror` equal to `None`, or with a colon-free message. -/
def isBadOutcome : ExecOutcome → Bool
  | .raises (.otherExc _) => true
  | .raises (.pgErr none) => true
  | .raises (.pgErr (some s)) => ((splitOnChar ':' s.data).drop 1).isEmpty
  | .ok => false

/-- Amended-claim: the secondary error propagated for a bad outcome —
`IndexError` for a colon-free message, `AttributeError` otherwise. -/
def badError : ExecOutcome → PyError
  | .raises (.pgErr (some _)) => .indexError
  | _ => .attributeError

/-- Amended-claim reference loop: a bad outcome aborts with its secondary
error; a duplicate-style outcome is skipped; every other outcome — a
successful insert, or a database error whose post-colon message segment
lacks `"duplicate"`, which the handler silently swallows — reaches the
commit; in the last two cases the loop continues with the remaining rows. -/
def loopRef (outcomes : Nat → ExecOutcome) :
    List (Nat × Row) → List Event × Option PyError
  | [] => ([], none)
  | (i, _) :: rest =>
    if isBadOutcome (outcomes i) then
      ([.execInsert i], some (badError (outcomes i)))
    else
      let res := loopRef outcomes rest
      (.execInsert i ::
        (if isDupOutcome (outcomes i) then Event.skipDuplicate i
         else Event.commit i) :: res.1,
       res.2)

/-- Whether building the per-row dict succeeds (no `KeyError`). -/
def rowDictOk (mapping : List (String × String)) (r : Row) : Bool :=
  match buildRowDict mapping r with
  | .ok _ => true
  | .error _ => false

/-! ## Concrete sample data for counterexamples and witnesses -/

/-- A row carrying every column either destination mapping needs. -/
def sampleRow : Row :=
  [("original_inventory_sector", "power"), ("iso3_country", "USA"),
   ("reporting_entity", "edgar"), ("gas", "co2"),
   ("emissions_quantity", "1.0"), ("emissions_quantity_units", "tonnes"),
   ("measurement_method_doi_or_url", "doi"),
   ("start_time", "2020-01-01"), ("end_time", "2020-12-31")]

/-- Oracle: row 0 raises a non-duplicate database error whose message does
contain a colon; every other row inserts fine. -/
def c1_outcomes : Nat → ExecOutcome := fun i =>
  if i = 0 then .raises (.pgErr (some "ERROR: value too long for type character varying"))
  else .ok

/-- Oracle: row 0 raises a duplicate-constraint violation; every other row
inserts fine. -/
def c2_outcomes : Nat → ExecOutcome := fun i =>
  if i = 0 then
    .raises (.pgErr (some "ERROR:  duplicate key value violates unique constraint country_duplicates"))
  else .ok

/-- Two rows whose `created_date` values differ. -/
def c3_rows : List Row :=
  [[("gas", "co2"), ("emissions_quantity", "1.0"),
    ("created_date", "2020-01-01T00:00:00")],
   [("gas", "ch4"), ("emissions_quantity", "2.0"),
    ("created_date", "2021-05-05T00:00:00")]]

/-- A minimal insertable row for the 1500-row scenario. -/
def c3_wrow : Row :=
  [("gas", "co2"), ("emissions_quantity", "0.5"), ("created_date", "2022-01-01")]

/-- 1500 identical rows. -/
def c3_wdata : List Row := List.replicate 1500 c3_wrow

/-- The batches issued for the 1500-row scenario. -/
def c3_wbatches : List Batch :=
  (insert_with_update c3_wdata "country_emissions").getD []

/-- A row with a geometry column, a quantity and a `created_date`. -/
def c4_row : Row :=
  [("iso3_country", "USA"), ("location", "POINT(0 0)"),
   ("emissions_quantity", "1.0"), ("created_date", "2022-01-01")]

/-- The batches issued for the `c4_row` upsert. -/
def c4_batches : List Batch :=
  (insert_with_update [c4_row] "country_emissions").getD []

/-- The single batch issued for the `c4_row` upsert. -/
def c4_b : Batch :=
  c4_batches.headD ⟨[], [], "", "", "", "", "", ""⟩

/-- The dict built from the polluted mapping for a stamped sample row. -/
def c8_dict : List (String × String) :=
  match buildRowDict (INSERT_MAPPING ++ [("mmd", "measurement_method_doi_or_url")])
      (setCol "created_date" "2024-01-01T00:00:00" sampleRow) with
  | .ok d => d
  | .error _ => []

/-! ## Helper lemmas -/

theorem lookup_map_overwrite (c v : String) :
    ∀ r : Row, r.any (fun p => p.1 = c) = true →
      (r.map (fun p => if p.1 = c then (p.1, v) else p)).lookup c = some v := by
  intro r
  induction r with
  | nil => intro h; simp at h
  | cons p t ih =>
    obtain ⟨k, w⟩ := p
    intro h
    by_cases hp : k = c
    · subst hp
      simp [List.lookup_cons]
    · have ht : t.any (fun p => p.1 = c) = true := by simpa [hp] using h
      have hk : (c == k) = false := by
        simp [beq_eq_false_iff_ne]
        exact fun hc => hp hc.symm
      simp [hp, List.lookup_cons, hk, ih ht]

theorem lookup_append_absent (c v : String) :
    ∀ r : Row, r.any (fun p => p.1 = c) = false →
      (r ++ [(c, v)]).lookup c = some v := by
  intro r
  induction r with
  | nil => intro _; exact List.lookup_cons_self
  | cons p t ih =>
    obtain ⟨k, w⟩ := p
    intro h
    have hp : ¬(k = c) := by
      intro hc; subst hc; simp at h
    have ht : t.any (fun p => p.1 = c) = false := by simpa [hp] using h
    have hk : (c == k) = false := by
      simp [beq_eq_false_iff_ne]
      exact fun hc => hp hc.symm
    rw [List.cons_append, List.lookup_cons, hk]
    exact ih ht

theorem lookup_setCol (c v : String) (r : Row) :
    (setCol c v r).lookup c = some v := by
  unfold setCol
  cases h : r.any (fun p => p.1 = c) with
  | true => simpa [h] using lookup_map_overwrite c v r h
  | false => simpa [h] using lookup_append_absent c v r h

theorem load_data_query_none_fst (source : String) (b : Bool) (d : PyDate) :
    (load_data_query source none b d).1 = query_no_gas := rfl

theorem load_data_query_some_false_fst (source g : String) (d : PyDate) :
    (load_data_query source (some g) false d).1 = query_gas_not_co2e := rfl

theorem load_data_query_some_true_fst (source g : String) (d : PyDate) :
    (load_data_query source (some g) true d).1 = query_gas_co2e := rfl

/-! ## C5, C6: the `load_data` queries -/

/-- C5 (counterexample): with a gas filter and `is_co2e=False` — and likewise
with no gas filter — the issued query does not contain any
`carbon_equivalency_method` text at all, so in particular it contains no
`"carbon_equivalency_method is null"` exclusion. -/
theorem load_data_no_carbon_equivalency_filter :
    strContains (load_data_query "edgar" (some "ch4") false default_start_date).1
        "carbon_equivalency_method" = false
    ∧ strContains (load_data_query "edgar" none false default_start_date).1
        "carbon_equivalency_method" = false := by
  rw [load_data_query_some_false_fst, load_data_query_none_fst]
  constructor <;> decide

/-- C5 (amended): with a gas filter and `is_co2e=False` the query contains
the CO2e-aggregate exclusion `gas != 'co2e_100yr' AND gas != 'co2e_20yr'`;
with `is_co2e=True` that exclusion is dropped; with no gas filter the query
excludes CO2e-aggregate rows via the same gas exclusion.  No variant
mentions `carbon_equivalency_method`. -/
theorem load_data_co2e_exclusion (source g : String) (d : PyDate) :
    strContains (load_data_query source (some g) false d).1
        "gas != 'co2e_100yr' AND gas != 'co2e_20yr'" = true
    ∧ strContains (load_data_query source (some g) true d).1 "co2e_100yr" = false
    ∧ strContains (load_data_query source none false d).1
        "gas != 'co2e_100yr' AND gas != 'co2e_20yr'" = true
    ∧ strContains (load_data_query source (some g) false d).1
        "carbon_equivalency_method" = false
    ∧ strContains (load_data_query source none false d).1
        "carbon_equivalency_method" = false
    ∧ strContains (load_data_query source (some g) true d).1
        "carbon_equivalency_method" = false := by
  rw [load_data_query_some_false_fst, load_data_query_some_true_fst,
    load_data_query_none_fst]
  refine ⟨?_, ?_, ?_, ?_, ?_, ?_⟩ <;> decide

/-- C6: every `load_data` query filters `reporting_entity = %s` (bound to
`source`, the first parameter) and `start_time >= %s` (bound to
`start_date`, the last parameter, whose default is 2013-01-01); the
CO2e-aggregate gas exclusion is present exactly when no gas is given or
`is_co2e` is false. -/
theorem load_data_entity_and_start_filters (source : String)
    (gas : Option String) (is_co2e : Bool) (d : PyDate) :
    strContains (load_data_query source gas is_co2e d).1 "reporting_entity = %s" = true
    ∧ strContains (load_data_query source gas is_co2e d).1 "start_time >= %s" = true
    ∧ (strContains (load_data_query source gas is_co2e d).1
          "gas != 'co2e_100yr' AND gas != 'co2e_20yr'" = true
        ↔ (gas = none ∨ is_co2e = false))
    ∧ (load_data_query source gas is_co2e d).2.head? = some (.str source)
    ∧ (load_data_query source gas is_co2e d).2.getLast? = some (.date d)
    ∧ default_start_date = ⟨2013, 1, 1⟩ := by
  cases gas with
  | none =>
    cases is_co2e <;>
      rw [load_data_query_none_fst] <;>
      exact ⟨by decide, by decide,
        iff_of_true (by decide) (Or.inl rfl), rfl, rfl, rfl⟩
  | some g =>
    cases is_co2e with
    | false =>
      rw [load_data_query_some_false_fst]
      exact ⟨by decide, by decide,
        iff_of_true (by decide) (Or.inr rfl), rfl, rfl, rfl⟩
    | true =>
      rw [load_data_query_some_true_fst]
      exact ⟨by decide, by decide,
        iff_of_false (by decide) (by simp), rfl, rfl, rfl⟩

/-! ## C7: `get_ghgs` branch selection -/

/-- C7: `get_ghgs` takes the specific-category branch exactly when `f_gas`
is truthy and the default gas-to-GWP lookup branch exactly when it is falsy;
the sentinel `"all"` branch is never taken — in particular `f_gas='all'`
takes the category branch. -/
theorem get_ghgs_all_branch_unreachable (f_gas : Option String) :
    (get_ghgs_branch f_gas = .byCategory ↔ truthy f_gas = true)
    ∧ (get_ghgs_branch f_gas = .defaultLookup ↔ truthy f_gas = false)
    ∧ get_ghgs_branch f_gas ≠ .allCategories
    ∧ get_ghgs_branch (some "all") = .byCategory := by
  cases f_gas with
  | none => decide
  | some s =>
    by_cases hs : s = ""
    · subst hs; decide
    · have ht : truthy (some s) = true := by simp [truthy, hs]
      refine ⟨?_, ?_, ?_, by decide⟩
      · simp [get_ghgs_branch, ht]
      · simp [get_ghgs_branch, ht]
      · simp [get_ghgs_branch, ht]

/-! ## C9: `write_data` mutates the caller's table up front -/

/-- C9: for every call to `write_data`, regardless of `rows_type`, the
caller's table is mutated in place — its `created_date` column set (or
overwritten) to the call timestamp for all rows — and this stamping event
precedes the cursor acquisition and every insert in the trace. -/
theorem write_data_stamps_created_date_in_place
    (mapping : List (String × String)) (data : List Row)
    (rows_type : Option String) (now : String)
    (outcomes : Nat → ExecOutcome) :
    (write_data mapping data rows_type now outcomes).table
        = data.map (setCol "created_date" now)
    ∧ (∀ r ∈ (write_data mapping data rows_type now outcomes).table,
        r.lookup "created_date" = some now)
    ∧ ∃ rest, (write_data mapping data rows_type now outcomes).trace
        = Event.stampCreatedDate :: Event.getCursor :: rest := by
  refine ⟨rfl, ?_, ⟨_, rfl⟩⟩
  intro r hr
  simp only [write_data, List.mem_map] at hr
  obtain ⟨a, -, rfl⟩ := hr
  exact lookup_setCol "created_date" now a

/-! ## C10: unknown `rows_type` -/

/-- C10 (amended): for every `rows_type` other than `"climate-trace"` and
`"edgar"`, calling `write_data` on a non-empty table whose first row has all
mapped columns propagates an `AttributeError` while processing the first
row: the `UnboundLocalError` from the unassigned insert statement is raised
inside the `try`, caught by the per-row handler, which then fails accessing
`pgerror` on it; the caller's table has already been mutated with a
`created_date` column, and no row is committed. -/
theorem write_data_unknown_rows_type_behavior
    (mapping : List (String × String)) (rows_type : Option String)
    (now : String) (outcomes : Nat → ExecOutcome) (r : Row) (rest : List Row)
    (h1 : rows_type ≠ some "climate-trace") (h2 : rows_type ≠ some "edgar")
    (h3 : rowDictOk mapping (setCol "created_date" now r) = true) :
    (write_data mapping (r :: rest) rows_type now outcomes).error
        = some PyError.attributeError
    ∧ (write_data mapping (r :: rest) rows_type now outcomes).trace
        = [Event.stampCreatedDate, Event.getCursor, Event.execInsert 0]
    ∧ (write_data mapping (r :: rest) rows_type now outcomes).table
        = (r :: rest).map (setCol "created_date" now)
    ∧ ∀ i, Event.commit i
        ∉ (write_data mapping (r :: rest) rows_type now outcomes).trace := by
  obtain ⟨d0, hd0⟩ : ∃ d0, buildRowDict mapping (setCol "created_date" now r) = .ok d0 := by
    unfold rowDictOk at h3
    cases hb : buildRowDict mapping (setCol "created_date" now r) with
    | ok d => exact ⟨d, rfl⟩
    | error e => rw [hb] at h3; simp at h3
  simp only [write_data, if_neg h1, if_neg h2, List.map_cons, List.enum,
    List.enumFrom, writeLoop, hd0, rowStep, handleExc]
  refine ⟨trivial, trivial, trivial, ?_⟩
  intro i
  simp

/-- C10 (counterexample): at a concrete unknown `rows_type` call, the error
that propagates to the caller is an `AttributeError` raised inside the
`except` handler, not the `UnboundLocalError` the claim names. -/
theorem write_data_unknown_rows_type_attribute_error :
    (write_data INSERT_MAPPING [sampleRow] none "2024-01-01T00:00:00"
        (fun _ => ExecOutcome.ok)).error = some PyError.attributeError
    ∧ some PyError.attributeError
        ≠ some (PyError.exc (.otherExc "UnboundLocalError")) := by
  constructor
  · decide
  · decide

/-- C10 (witness): the amended theorem applied at a concrete call. -/
theorem write_data_unknown_rows_type_behavior_witness :
    rowDictOk INSERT_MAPPING
        (setCol "created_date" "2024-02-02T00:00:00" sampleRow) = true
    ∧ (write_data INSERT_MAPPING [sampleRow] (some "other") "2024-02-02T00:00:00"
        (fun _ => ExecOutcome.ok)).error = some PyError.attributeError :=
  ⟨by decide,
    (write_data_unknown_rows_type_behavior INSERT_MAPPING (some "other")
      "2024-02-02T00:00:00" (fun _ => ExecOutcome.ok) sampleRow []
      (by decide) (by decide) (by decide)).1⟩

/-! ## C8: the polluted `INSERT_MAPPING` -/

theorem buildRowDict_keys :
    ∀ (m : List (String × String)) (r : Row) (d : List (String × String)),
      buildRowDict m r = .ok d → d.map Prod.fst = m.map Prod.fst := by
  intro m
  induction m with
  | nil =>
    intro r d h
    simp [buildRowDict] at h
    simp [← h]
  | cons p t ih =>
    intro r d h
    have hstep : buildRowDict (p :: t) r
        = match r.lookup p.2, buildRowDict t r with
          | none, _ => .error (.keyError p.2)
          | some v, .ok dd => .ok ((p.1, v) :: dd)
          | some _, .error e => .error e := rfl
    rw [hstep] at h
    cases hl : r.lookup p.2 with
    | none => rw [hl] at h; simp at h
    | some v =>
      cases hb : buildRowDict t r with
      | error e => rw [hl, hb] at h; simp at h
      | ok dd =>
        rw [hl, hb] at h
        have hv : (p.1, v) :: dd = d := by
          injection h
        rw [← hv]
        simp [ih r dd hb]

/-- C8: a `write_data` call with `rows_type="edgar"` leaves the module-level
`INSERT_MAPPING` extended with `"mmd" ↦ "measurement_method_doi_or_url"`; a
subsequent `"climate-trace"` call keeps that polluted mapping, and every
per-row dict built from it carries the extra `"mmd"` key. -/
theorem write_data_edgar_pollutes_mapping
    (data data2 : List Row) (now now2 : String)
    (outcomes outcomes2 : Nat → ExecOutcome) (r : Row) (d : List (String × String))
    (hd : buildRowDict (INSERT_MAPPING ++ [("mmd", "measurement_method_doi_or_url")]) r
        = .ok d) :
    (write_data INSERT_MAPPING data (some "edgar") now outcomes).mapping
        = INSERT_MAPPING ++ [("mmd", "measurement_method_doi_or_url")]
    ∧ (write_data (INSERT_MAPPING ++ [("mmd", "measurement_method_doi_or_url")]) data2
          (some "climate-trace") now2 outcomes2).mapping
        = INSERT_MAPPING ++ [("mmd", "measurement_method_doi_or_url")]
    ∧ d.map Prod.fst = INSERT_MAPPING.map Prod.fst ++ ["mmd"] := by
  refine ⟨rfl, rfl, ?_⟩
  rw [buildRowDict_keys _ r d hd]
  decide

/-- C8 (witness): the pollution theorem applied at a concrete row. -/
theorem write_data_edgar_pollutes_mapping_witness :
    buildRowDict (INSERT_MAPPING ++ [("mmd", "measurement_method_doi_or_url")])
        (setCol "created_date" "2024-01-01T00:00:00" sampleRow) = .ok c8_dict
    ∧ c8_dict.map Prod.fst = INSERT_MAPPING.map Prod.fst ++ ["mmd"] :=
  ⟨rfl,
    (write_data_edgar_pollutes_mapping [] [] "t" "t2" (fun _ => ExecOutcome.ok)
      (fun _ => ExecOutcome.ok)
      (setCol "created_date" "2024-01-01T00:00:00" sampleRow) c8_dict rfl).2.2⟩

/-! ## C1, C2: the shared per-row error handling of `write_data` -/

/-- Each `try`/`except` iteration with an assigned insert statement is
classified by the outcome: a bad outcome raises its secondary error, a
duplicate-style outcome is skipped, anything else reaches the commit. -/
theorem rowStep_classify (s : String) (out : ExecOutcome) :
    rowStep (some s) out =
      (if isBadOutcome out then .raised (badError out)
       else if isDupOutcome out then .skipped
       else .committed) := by
  cases out with
  | ok => rfl
  | raises e =>
    cases e with
    | otherExc n => rfl
    | pgErr p =>
      cases p with
      | none => rfl
      | some msg =>
        simp only [rowStep, handleExc, isBadOutcome, isDupOutcome, badError]
        split <;> simp_all

/-- With an assigned insert statement and all row dicts buildable, the
per-row loop of `write_data` coincides with the reference loop. -/
theorem writeLoop_eq_loopRef (mapping : List (String × String)) (s : String)
    (outcomes : Nat → ExecOutcome) :
    ∀ idxRows : List (Nat × Row),
      (∀ p ∈ idxRows, rowDictOk mapping p.2 = true) →
      writeLoop mapping (some s) outcomes idxRows = loopRef outcomes idxRows := by
  intro idxRows
  induction idxRows with
  | nil => intro _; rfl
  | cons q rest ih =>
    obtain ⟨i, r⟩ := q
    intro hok
    obtain ⟨d0, hd0⟩ : ∃ d0, buildRowDict mapping r = .ok d0 := by
      have h3 := hok (i, r) (List.mem_cons_self _ _)
      unfold rowDictOk at h3
      cases hb : buildRowDict mapping r with
      | ok d => exact ⟨d, rfl⟩
      | error e => rw [hb] at h3; simp at h3
    have hrest := ih (fun p hp => hok p (List.mem_cons_of_mem _ hp))
    simp only [writeLoop, hd0, rowStep_classify, loopRef]
    by_cases hbad : isBadOutcome (outcomes i) = true
    · simp [hbad]
    · have hbad' : isBadOutcome (outcomes i) = false := by
        simpa using hbad
      by_cases hdup : isDupOutcome (outcomes i) = true
      · simp [hbad', hdup, hrest]
      · have hdup' : isDupOutcome (outcomes i) = false := by
          simpa using hdup
        simp [hbad', hdup', hrest]

/-- C1 (amended): for `rows_type="edgar"`, the per-row loop behaves as
`loopRef` describes: a row raising a database error whose post-colon message
segment contains "duplicate" is skipped without a commit and the loop
continues; a row raising a database error whose message has a colon but no
"duplicate" in the segment after the first colon is silently swallowed and
still committed, the loop continuing; only an exception without a usable
`pgerror` (no attribute, `None`, or a colon-free message) propagates — as a
secondary `AttributeError`/`IndexError` — aborting the remaining rows. -/
theorem write_data_edgar_loop_characterization
    (mapping : List (String × String)) (data : List Row) (now : String)
    (outcomes : Nat → ExecOutcome)
    (hok : ∀ r ∈ data.map (setCol "created_date" now),
      rowDictOk (dictSet "mmd" "measurement_method_doi_or_url" mapping) r = true) :
    (write_data mapping data (some "edgar") now outcomes).trace
        = Event.stampCreatedDate :: Event.getCursor ::
            (loopRef outcomes (data.map (setCol "created_date" now)).enum).1
    ∧ (write_data mapping data (some "edgar") now outcomes).error
        = (loopRef outcomes (data.map (setCol "created_date" now)).enum).2 := by
  have hok2 : ∀ p ∈ (data.map (setCol "created_date" now)).enum,
      rowDictOk (dictSet "mmd" "measurement_method_doi_or_url" mapping) p.2 = true := by
    intro p hp
    apply hok
    have hsnd := List.enum_map_snd (data.map (setCol "created_date" now))
    exact hsnd ▸ List.mem_map_of_mem Prod.snd hp
  have hloop := writeLoop_eq_loopRef (dictSet "mmd" "measurement_method_doi_or_url" mapping)
    edgar_insert_str outcomes (data.map (setCol "created_date" now)).enum hok2
  constructor
  · show Event.stampCreatedDate :: Event.getCursor ::
        (writeLoop (dictSet "mmd" "measurement_method_doi_or_url" mapping)
          (some edgar_insert_str) outcomes (data.map (setCol "created_date" now)).enum).1 = _
    rw [hloop]
  · show (writeLoop (dictSet "mmd" "measurement_method_doi_or_url" mapping)
        (some edgar_insert_str) outcomes (data.map (setCol "created_date" now)).enum).2 = _
    rw [hloop]

/-- C2 (amended): for `rows_type="climate-trace"` the per-row loop has
exactly the same recovery as the `"edgar"` path — the shared `try`/`except`
skips duplicate-style errors and swallows other colon-bearing database
errors, continuing with the remaining rows; it is not the case that any
insert failure aborts the loop. -/
theorem write_data_climate_trace_loop_characterization
    (mapping : List (String × String)) (data : List Row) (now : String)
    (outcomes : Nat → ExecOutcome)
    (hok : ∀ r ∈ data.map (setCol "created_date" now), rowDictOk mapping r = true) :
    (write_data mapping data (some "climate-trace") now outcomes).trace
        = Event.stampCreatedDate :: Event.getCursor ::
            (loopRef outcomes (data.map (setCol "created_date" now)).enum).1
    ∧ (write_data mapping data (some "climate-trace") now outcomes).error
        = (loopRef outcomes (data.map (setCol "created_date" now)).enum).2 := by
  have hok2 : ∀ p ∈ (data.map (setCol "created_date" now)).enum,
      rowDictOk mapping p.2 = true := by
    intro p hp
    apply hok
    have hsnd := List.enum_map_snd (data.map (setCol "created_date" now))
    exact hsnd ▸ List.mem_map_of_mem Prod.snd hp
  have hloop := writeLoop_eq_loopRef mapping ct_insert_str outcomes
    (data.map (setCol "created_date" now)).enum hok2
  constructor
  · show Event.stampCreatedDate :: Event.getCursor ::
        (writeLoop mapping (some ct_insert_str) outcomes
          (data.map (setCol "created_date" now)).enum).1 = _
    rw [hloop]
  · show (writeLoop mapping (some ct_insert_str) outcomes
        (data.map (setCol "created_date" now)).enum).2 = _
    rw [hloop]

/-- C1 (counterexample): with `rows_type="edgar"`, a row whose insert raises
a non-duplicate database error (`pgerror` = "ERROR: value too long...") does
not propagate anything: the handler swallows it, the row is even committed,
and the loop continues with the next row. -/
theorem edgar_non_duplicate_error_swallowed :
    (write_data INSERT_MAPPING [sampleRow, sampleRow] (some "edgar")
        "2024-03-03T00:00:00" c1_outcomes).error = none
    ∧ Event.commit 0 ∈ (write_data INSERT_MAPPING [sampleRow, sampleRow] (some "edgar")
        "2024-03-03T00:00:00" c1_outcomes).trace
    ∧ Event.execInsert 1 ∈ (write_data INSERT_MAPPING [sampleRow, sampleRow] (some "edgar")
        "2024-03-03T00:00:00" c1_outcomes).trace := by
  refine ⟨by decide, by decide, by decide⟩

/-- C2 (counterexample): with `rows_type="climate-trace"`, a row whose
insert raises a duplicate-constraint violation is skipped and the loop
continues — the later row is attempted and committed and no error
propagates, contradicting the claimed absence of duplicate-recovery. -/
theorem climate_trace_duplicate_skipped :
    Event.skipDuplicate 0 ∈ (write_data INSERT_MAPPING [sampleRow, sampleRow]
        (some "climate-trace") "2024-04-04T00:00:00" c2_outcomes).trace
    ∧ Event.execInsert 1 ∈ (write_data INSERT_MAPPING [sampleRow, sampleRow]
        (some "climate-trace") "2024-04-04T00:00:00" c2_outcomes).trace
    ∧ Event.commit 1 ∈ (write_data INSERT_MAPPING [sampleRow, sampleRow]
        (some "climate-trace") "2024-04-04T00:00:00" c2_outcomes).trace
    ∧ (write_data INSERT_MAPPING [sampleRow, sampleRow]
        (some "climate-trace") "2024-04-04T00:00:00" c2_outcomes).error = none := by
  refine ⟨by decide, by decide, by decide, by decide⟩

/-- C1 (witness): the edgar loop characterization applied at a concrete
call. -/
theorem write_data_edgar_loop_characterization_witness :
    (∀ r ∈ ([sampleRow, sampleRow] : List Row).map (setCol "created_date" "2024-03-03T00:00:00"),
      rowDictOk (dictSet "mmd" "measurement_method_doi_or_url" INSERT_MAPPING) r = true)
    ∧ (write_data INSERT_MAPPING [sampleRow, sampleRow] (some "edgar")
        "2024-03-03T00:00:00" c1_outcomes).error
      = (loopRef c1_outcomes
          (([sampleRow, sampleRow] : List Row).map
            (setCol "created_date" "2024-03-03T00:00:00")).enum).2 :=
  ⟨by decide,
    (write_data_edgar_loop_characterization INSERT_MAPPING [sampleRow, sampleRow]
      "2024-03-03T00:00:00" c1_outcomes (by decide)).2⟩

/-- C2 (witness): the climate-trace loop characterization applied at a
concrete call. -/
theorem write_data_climate_trace_loop_characterization_witness :
    (∀ r ∈ ([sampleRow, sampleRow] : List Row).map (setCol "created_date" "2024-04-04T00:00:00"),
      rowDictOk INSERT_MAPPING r = true)
    ∧ (write_data INSERT_MAPPING [sampleRow, sampleRow] (some "climate-trace")
        "2024-04-04T00:00:00" c2_outcomes).error
      = (loopRef c2_outcomes
          (([sampleRow, sampleRow] : List Row).map
            (setCol "created_date" "2024-04-04T00:00:00")).enum).2 :=
  ⟨by decide,
    (write_data_climate_trace_loop_characterization INSERT_MAPPING [sampleRow, sampleRow]
      "2024-04-04T00:00:00" c2_outcomes (by decide)).2⟩

/-! ## C3: batching of `insert_with_update` -/

/-- The chunking worker is fuel-irrelevant once the fuel covers the list. -/
theorem chunksFuel_congr :
    ∀ (n m : Nat) (l : List Row), l.length ≤ n → l.length ≤ m →
      chunksFuel n l = chunksFuel m l := by
  intro n
  induction n with
  | zero =>
    intro m l hn _
    cases l with
    | nil => cases m <;> rfl
    | cons a t => simp at hn
  | succ n ih =>
    intro m l hn hm
    cases l with
    | nil => cases m <;> rfl
    | cons a t =>
      cases m with
      | zero => simp at hm
      | succ m =>
        simp only [chunksFuel]
        congr 1
        apply ih
        · simp only [List.length_drop, List.length_cons] at hn ⊢
          omega
        · simp only [List.length_drop, List.length_cons] at hm ⊢
          omega

/-- Unfolding equation of the chunking loop on a non-empty list. -/
theorem chunks1000_cons (a : Row) (t : List Row) :
    chunks1000 (a :: t) = ((a :: t).take 1000) :: chunks1000 ((a :: t).drop 1000) := by
  show chunksFuel (a :: t).length (a :: t) = _
  rw [List.length_cons]
  simp only [chunksFuel]
  congr 1
  apply chunksFuel_congr
  · simp only [List.length_drop, List.length_cons]
    omega
  · exact le_rfl

/-- Concatenating the chunks in order restores the input (auxiliary). -/
theorem chunks1000_flatten_aux :
    ∀ (n : Nat) (l : List Row), l.length ≤ n → (chunks1000 l).flatten = l := by
  intro n
  induction n with
  | zero =>
    intro l h
    cases l with
    | nil => simp [chunks1000, chunksFuel]
    | cons a t => simp at h
  | succ n ih =>
    intro l h
    cases l with
    | nil => simp [chunks1000, chunksFuel]
    | cons a t =>
      rw [chunks1000_cons]
      have hlen : ((a :: t).drop 1000).length ≤ n := by
        simp only [List.length_drop, List.length_cons] at h ⊢
        omega
      simp only [List.flatten_cons, ih _ hlen]
      exact List.take_append_drop 1000 (a :: t)

/-- Concatenating the chunks in order restores the input list. -/
theorem chunks1000_flatten (l : List Row) : (chunks1000 l).flatten = l :=
  chunks1000_flatten_aux l.length l le_rfl

/-- Every chunk is non-empty and holds at most 1000 rows (auxiliary). -/
theorem chunks1000_mem_aux :
    ∀ (n : Nat) (l : List Row), l.length ≤ n →
      ∀ c ∈ chunks1000 l, c.length ≤ 1000 ∧ c ≠ [] := by
  intro n
  induction n with
  | zero =>
    intro l h c hc
    cases l with
    | nil => simp [chunks1000, chunksFuel] at hc
    | cons a t => simp at h
  | succ n ih =>
    intro l h c hc
    cases l with
    | nil => simp [chunks1000, chunksFuel] at hc
    | cons a t =>
      rw [chunks1000_cons] at hc
      rcases List.mem_cons.mp hc with hh | hh
      · subst hh
        refine ⟨by simp, ?_⟩
        intro hnil
        have h0 : ((a :: t).take 1000).length = 0 := by rw [hnil]; rfl
        simp at h0
      · have hlen : ((a :: t).drop 1000).length ≤ n := by
          simp only [List.length_drop, List.length_cons] at h ⊢
          omega
        exact ih _ hlen c hh

/-- Every chunk is non-empty and holds at most 1000 rows. -/
theorem chunks1000_mem (l : List Row) (c : List Row) (hc : c ∈ chunks1000 l) :
    c.length ≤ 1000 ∧ c ≠ [] :=
  chunks1000_mem_aux l.length l le_rfl c hc

/-- A 1500-row input chunks into exactly the first 1000 and the last 500. -/
theorem chunks1000_of_length_1500 (l : List Row) (h : l.length = 1500) :
    chunks1000 l = [l.take 1000, l.drop 1000] := by
  cases l with
  | nil => simp at h
  | cons a t =>
    have ht : t.length = 1499 := by simpa using h
    rw [chunks1000_cons]
    cases hd : (a :: t).drop 1000 with
    | nil =>
      exfalso
      have h0 := congrArg List.length hd
      simp [List.length_drop] at h0
      omega
    | cons b u =>
      have h5 := congrArg List.length hd
      simp only [List.length_drop, List.length_cons] at h5
      rw [chunks1000_cons]
      have h1 : (b :: u).take 1000 = b :: u :=
        List.take_of_length_le (by simp only [List.length_cons]; omega)
      have h2 : (b :: u).drop 1000 = [] :=
        List.drop_eq_nil_of_le (by simp only [List.length_cons]; omega)
      rw [h1, h2]
      simp [chunks1000, chunksFuel]

/-- A successfully built batch sends exactly its chunk's row values,
unchanged and in order. -/
theorem buildBatch_vals (table : String) (c : List Row) (b : Batch)
    (h : buildBatch table c = some b) :
    b.vals = c.map (fun r => r.map Prod.snd) := by
  cases c with
  | nil => simp [buildBatch] at h
  | cons d0 rest =>
    simp only [buildBatch] at h
    cases h1 : popKey "created_date" (List.map Prod.fst d0) with
    | none => rw [h1] at h; simp at h
    | some colsNoCd =>
      rw [h1] at h
      dsimp only [] at h
      cases h2 : popKey "emissions_quantity" colsNoCd with
      | none => rw [h2] at h; simp at h
      | some baseWhere =>
        rw [h2] at h
        dsimp only [] at h
        simp only [Option.some_inj] at h
        rw [← h]

/-- A successful `mapBatches` run produces one batch per chunk, in order,
each built from its chunk. -/
theorem mapBatches_some (table : String) :
    ∀ (cs : List (List Row)) (bs : List Batch),
      mapBatches table cs = some bs →
      bs.map Batch.vals = cs.map (fun c => c.map (fun r => r.map Prod.snd))
      ∧ ∀ b ∈ bs, ∃ c ∈ cs, buildBatch table c = some b := by
  intro cs
  induction cs with
  | nil =>
    intro bs h
    simp [mapBatches] at h
    subst h
    simp
  | cons c cs ih =>
    intro bs h
    simp only [mapBatches] at h
    cases hb : buildBatch table c with
    | none => rw [hb] at h; simp at h
    | some b0 =>
      rw [hb] at h
      cases hrest : mapBatches table cs with
      | none => rw [hrest] at h; simp at h
      | some bs0 =>
        rw [hrest] at h
        dsimp only [] at h
        simp only [Option.some_inj] at h
        obtain ⟨hvals, hmem⟩ := ih bs0 hrest
        constructor
        · rw [← h]
          simp only [List.map_cons, hvals]
          rw [buildBatch_vals table c b0 hb]
        · intro b hbmem
          rw [← h] at hbmem
          rcases List.mem_cons.mp hbmem with hh | hh
          · exact ⟨c, List.mem_cons_self _ _, hh ▸ hb⟩
          · obtain ⟨c2, hc2, hb2⟩ := hmem b hh
            exact ⟨c2, List.mem_cons_of_mem _ hc2, hb2⟩

/-- C3 (amended): `insert_with_update` chunks the rows into batches of at
most 1000 in input order and issues (and commits) one INSERT statement per
batch — exactly two of 1000 and 500 rows for 1500 input rows; it does not
stamp `created_date`: every row's values, `created_date` included, are
passed through to the statement unchanged. -/
theorem insert_with_update_batching (e_data : List Row) (table : String)
    (bs : List Batch) (h : insert_with_update e_data table = some bs) :
    (bs.map Batch.vals).flatten = e_data.map (fun r => r.map Prod.snd)
    ∧ (∀ b ∈ bs, b.vals.length ≤ 1000 ∧ b.vals ≠ [])
    ∧ (e_data.length = 1500 → bs.map (fun b => b.vals.length) = [1000, 500]) := by
  obtain ⟨hvals, hmem⟩ := mapBatches_some table (chunks1000 e_data) bs h
  refine ⟨?_, ?_, ?_⟩
  · rw [hvals, ← List.map_flatten, chunks1000_flatten]
  · intro b hb
    obtain ⟨c, hc, hbc⟩ := hmem b hb
    obtain ⟨hle, hne⟩ := chunks1000_mem e_data c hc
    rw [buildBatch_vals table c b hbc]
    constructor
    · simpa using hle
    · simpa using hne
  · intro h1500
    have hlen : bs.map (fun b => b.vals.length)
        = (chunks1000 e_data).map List.length := by
      have := congrArg (List.map List.length) hvals
      simpa [List.map_map, Function.comp_def, List.length_map] using this
    rw [hlen, chunks1000_of_length_1500 e_data h1500]
    simp [List.length_take, List.length_drop, h1500]

/-- C3 (counterexample): two input rows carrying distinct `created_date`
values are sent with those two distinct values, so the rows of the issued
statement do not share a single `created_date` value — no per-call stamp is
applied by `insert_with_update`. -/
theorem insert_with_update_no_created_date_stamp :
    (insert_with_update c3_rows "country_emissions").map
        (fun bs => bs.map (fun b => b.vals.map (fun v => v.getLast?)))
      = some [[some "2020-01-01T00:00:00", some "2021-05-05T00:00:00"]]
    ∧ ("2020-01-01T00:00:00" : String) ≠ "2021-05-05T00:00:00" := by
  constructor
  · decide
  · decide

/-- The 1500-row scenario builds its batches successfully. -/
theorem c3_wbatches_some :
    insert_with_update c3_wdata "country_emissions" = some c3_wbatches := rfl

/-- C3 (witness): the batching theorem applied to 1500 concrete rows. -/
theorem insert_with_update_batching_witness :
    c3_wdata.length = 1500
    ∧ c3_wbatches.map (fun b => b.vals.length) = [1000, 500] :=
  ⟨by simp [c3_wdata],
    (insert_with_update_batching c3_wdata "country_emissions" c3_wbatches
      c3_wbatches_some).2.2 (by simp [c3_wdata])⟩

/-! ## C4: the upsert clause construction -/

/-- A fold appending one rendered piece per element concatenates the
rendered pieces after the accumulator. -/
theorem foldl_piece (f : String → String → String) (piece : String → String)
    (hf : ∀ a d, f a d = a ++ piece d) :
    ∀ (l : List String) (acc : String), l.foldl f acc = acc ++ strJoin (l.map piece) := by
  intro l
  induction l with
  | nil => intro acc; simp [strJoin, String.append_empty]
  | cons d t ih =>
    intro acc
    rw [List.foldl_cons, hf, ih, List.map_cons]
    show _ = acc ++ strJoin ((fun c => c) (piece d) :: t.map piece)
    simp only [strJoin]
    rw [String.append_assoc]

/-- A fold that skips one key and appends a piece otherwise renders the
filtered list. -/
theorem foldl_skip (f : String → String → String) (piece : String → String) (k : String)
    (hf : ∀ a d, f a d = if d = k then a else a ++ piece d) :
    ∀ (l : List String) (acc : String),
      l.foldl f acc = acc ++ strJoin ((l.filter (fun d => d != k)).map piece) := by
  intro l
  induction l with
  | nil => intro acc; simp [strJoin, String.append_empty]
  | cons d t ih =>
    intro acc
    rw [List.foldl_cons, hf]
    by_cases hd : d = k
    · rw [if_pos hd, ih]
      have : (d :: t).filter (fun d => d != k) = t.filter (fun d => d != k) := by
        simp [List.filter_cons, hd]
      rw [this]
    · rw [if_neg hd, ih]
      have : (d :: t).filter (fun d => d != k) = d :: t.filter (fun d => d != k) := by
        simp [List.filter_cons, hd]
      rw [this, List.map_cons]
      simp only [strJoin]
      rw [String.append_assoc]

/-- Concatenating space-prefixed, separator-suffixed clauses equals the
separator-joined clause list wrapped in a leading space and one trailing
separator. -/
theorem strJoin_tailsep (ts : String) :
    ∀ cl : List String, cl ≠ [] →
      strJoin (cl.map (fun c => " " ++ c ++ ts))
        = " " ++ conjoin (ts ++ " ") cl ++ ts := by
  intro cl
  induction cl with
  | nil => intro h; exact absurd rfl h
  | cons c t ih =>
    intro _
    cases t with
    | nil => simp [strJoin, conjoin, String.append_empty]
    | cons c2 t2 =>
      rw [List.map_cons, strJoin, ih (by simp)]
      show (" " ++ c ++ ts) ++ (" " ++ conjoin (ts ++ " ") (c2 :: t2) ++ ts)
          = " " ++ (c ++ (ts ++ " ") ++ conjoin (ts ++ " ") (c2 :: t2)) ++ ts
      simp [String.append_assoc]

/-- Slicing off exactly the appended suffix restores the prefix. -/
theorem pySlice_append (s t : String) (n : Nat) (h : t.data.length = n) :
    pySliceDropRight n (s ++ t) = s := by
  unfold pySliceDropRight
  apply String.ext
  show ((s ++ t).data.take ((s ++ t).data.length - n)) = s.data
  rw [String.data_append, List.length_append, h]
  have : s.data.length + n - n = s.data.length := by omega
  rw [this]
  exact List.take_left s.data t.data

/-- Appending one clause to a non-empty joined list appends one separator
and the clause. -/
theorem conjoin_append_single (sep x : String) :
    ∀ l : List String, l ≠ [] →
      conjoin sep (l ++ [x]) = conjoin sep l ++ sep ++ x := by
  intro l
  induction l with
  | nil => intro h; exact absurd rfl h
  | cons c t ih =>
    intro _
    cases t with
    | nil => simp [conjoin]
    | cons c2 t2 =>
      rw [List.cons_append]
      show conjoin sep (c :: (c2 :: t2 ++ [x])) = _
      have h1 : conjoin sep (c :: (c2 :: t2 ++ [x]))
          = c ++ sep ++ conjoin sep (c2 :: t2 ++ [x]) := by
        cases t2 <;> rfl
      rw [h1, ih (by simp)]
      show _ = (c ++ sep ++ conjoin sep (c2 :: t2)) ++ sep ++ x
      simp [String.append_assoc]

/-- The code's SET builder renders the spec's SET list: every column except
`created_date` assigned its `excluded` value, plus `modified_date = NOW()`. -/
theorem set_statement_spec (cols : List String) :
    set_statement cols = spec_set_statement cols := by
  unfold set_statement spec_set_statement
  rw [foldl_skip _ (fun d => " " ++ (d ++ " = excluded." ++ d) ++ ",") "created_date"
      (by
        intro a d
        by_cases hd : d = "created_date"
        · rw [if_pos hd, if_pos hd]
        · rw [if_neg hd, if_neg hd]
          simp only [String.append_assoc])]
  rw [String.empty_append]
  cases hf : cols.filter (fun d => d != "created_date") with
  | nil =>
    simp only [List.map_nil, strJoin, List.nil_append]
    show " modified_date = NOW()" = " " ++ conjoin ", " ["modified_date = NOW()"]
    rfl
  | cons c t =>
    have hmm : (c :: t).map (fun d => " " ++ (d ++ " = excluded." ++ d) ++ ",")
        = ((c :: t).map (fun d => d ++ " = excluded." ++ d)).map (fun c => " " ++ c ++ ",") := by
      rw [List.map_map]
      rfl
    rw [hmm]
    rw [strJoin_tailsep "," ((c :: t).map (fun d => d ++ " = excluded." ++ d)) (by simp)]
    rw [conjoin_append_single ", " "modified_date = NOW()"
      ((c :: t).map (fun d => d ++ " = excluded." ++ d)) (by simp)]
    show " " ++ conjoin ("," ++ " ") _ ++ "," ++ " modified_date = NOW()" = _
    have hsep : ("," ++ " " : String) = ", " := rfl
    have hmod : ("," ++ " modified_date = NOW()" : String)
        = ", " ++ "modified_date = NOW()" := rfl
    rw [hsep]
    simp only [String.append_assoc, ← hmod]

/-- The code's WHERE builder renders the conjunction of the spec's equality
clauses over the given columns. -/
theorem where_statement_spec (table : String) (bw : List String) (h : bw ≠ []) :
    where_statement table bw
      = " " ++ conjoin " AND " (bw.map (spec_eq_clause table)) ++ " " := by
  unfold where_statement
  rw [foldl_piece _ (fun d => " " ++ spec_eq_clause table d ++ " AND")
      (by
        intro a d
        simp only [spec_eq_clause]
        by_cases hd : d = "location"
        · rw [if_pos hd, if_pos hd]
          have l1 : (" ST_AsText(" : String) = " " ++ "ST_AsText(" := rfl
          have l3 : (") AND" : String) = ")" ++ " AND" := rfl
          rw [l1, l3]
          simp only [String.append_assoc]
        · rw [if_neg hd, if_neg hd]
          simp only [String.append_assoc])]
  rw [String.empty_append]
  have hmm : bw.map (fun d => " " ++ spec_eq_clause table d ++ " AND")
      = (bw.map (spec_eq_clause table)).map (fun c => " " ++ c ++ " AND") := by
    rw [List.map_map]
    rfl
  rw [hmm, strJoin_tailsep " AND" (bw.map (spec_eq_clause table)) (by simpa using h)]
  have hsep : (" AND" ++ " " : String) = " AND " := rfl
  rw [hsep]
  have hregroup : (" " ++ conjoin " AND " (bw.map (spec_eq_clause table)) ++ " AND" : String)
      = (" " ++ conjoin " AND " (bw.map (spec_eq_clause table)) ++ " ") ++ "AND" := by
    have hx : (" AND" : String) = " " ++ "AND" := rfl
    rw [hx]
    simp only [String.append_assoc]
  rw [hregroup, pySlice_append _ "AND" 3 rfl]

/-- The code's AND builder renders the parenthesized disjunction of the
spec's inequality clauses over the given columns. -/
theorem and_statement_spec (table : String) (ba : List String) (h : ba ≠ []) :
    and_statement table ba
      = "( " ++ conjoin " OR " (ba.map (spec_neq_clause table)) ++ " )" := by
  unfold and_statement
  rw [foldl_piece _ (fun d => " " ++ spec_neq_clause table d ++ " OR")
      (by
        intro a d
        simp only [spec_neq_clause]
        by_cases hd : d = "location"
        · rw [if_pos hd, if_pos hd]
          have l1 : (" ST_AsText(" : String) = " " ++ "ST_AsText(" := rfl
          have l3 : (") OR" : String) = ")" ++ " OR" := rfl
          rw [l1, l3]
          simp only [String.append_assoc]
        · rw [if_neg hd, if_neg hd]
          by_cases he : d = "emissions_quantity"
          · rw [if_pos he, if_pos he]
            have l4 : (" coalesce(" : String) = " " ++ "coalesce(" := rfl
            rw [l4]
            simp only [String.append_assoc]
          · rw [if_neg he, if_neg he]
            simp only [String.append_assoc])]
  have hmm : ba.map (fun d => " " ++ spec_neq_clause table d ++ " OR")
      = (ba.map (spec_neq_clause table)).map (fun c => " " ++ c ++ " OR") := by
    rw [List.map_map]
    rfl
  rw [hmm, strJoin_tailsep " OR" (ba.map (spec_neq_clause table)) (by simpa using h)]
  have hsep : (" OR" ++ " " : String) = " OR " := rfl
  rw [hsep]
  have hregroup : ("(" ++ (" " ++ conjoin " OR " (ba.map (spec_neq_clause table)) ++ " OR") : String)
      = ("(" ++ " " ++ conjoin " OR " (ba.map (spec_neq_clause table)) ++ " ") ++ "OR" := by
    have hx : (" OR" : String) = " " ++ "OR" := rfl
    rw [hx]
    simp only [String.append_assoc]
  rw [hregroup, pySlice_append _ "OR" 2 rfl]
  have hopen : ("(" ++ " " : String) = "( " := rfl
  have hclose : (" " ++ ")" : String) = " )" := rfl
  rw [← hopen, ← hclose]
  simp only [String.append_assoc]

/-- Field characterization of a successfully built batch: the key columns
are present and the three clause strings come from the code's builders over
the first row's keys with `created_date` (and, for WHERE,
`emissions_quantity`) popped. -/
theorem buildBatch_fields (table : String) (c : List Row) (b : Batch)
    (h : buildBatch table c = some b) :
    "created_date" ∈ b.cols
    ∧ "emissions_quantity" ∈ b.cols.erase "created_date"
    ∧ b.set_stmt = set_statement b.cols
    ∧ b.where_stmt
        = where_statement table ((b.cols.erase "created_date").erase "emissions_quantity")
    ∧ b.and_stmt = and_statement table (b.cols.erase "created_date") := by
  cases c with
  | nil => simp [buildBatch] at h
  | cons d0 rest =>
    simp only [buildBatch] at h
    cases h1 : popKey "created_date" (List.map Prod.fst d0) with
    | none => rw [h1] at h; simp at h
    | some colsNoCd =>
      rw [h1] at h
      dsimp only [] at h
      cases h2 : popKey "emissions_quantity" colsNoCd with
      | none => rw [h2] at h; simp at h
      | some baseWhere =>
        rw [h2] at h
        dsimp only [] at h
        simp only [Option.some_inj] at h
        unfold popKey at h1 h2
        have hm1 : "created_date" ∈ List.map Prod.fst d0
            ∧ colsNoCd = (List.map Prod.fst d0).erase "created_date" := by
          by_cases hx : "created_date" ∈ List.map Prod.fst d0
          · rw [if_pos hx] at h1
            exact ⟨hx, (Option.some_inj.mp h1).symm⟩
          · rw [if_neg hx] at h1
            simp at h1
        have hm2 : "emissions_quantity" ∈ colsNoCd
            ∧ baseWhere = colsNoCd.erase "emissions_quantity" := by
          by_cases hx : "emissions_quantity" ∈ colsNoCd
          · rw [if_pos hx] at h2
            exact ⟨hx, (Option.some_inj.mp h2).symm⟩
          · rw [if_neg hx] at h2
            simp at h2
        rw [← h]
        refine ⟨hm1.1, ?_, rfl, ?_, ?_⟩
        · rw [← hm1.2]
          exact hm2.1
        · rw [hm2.2, hm1.2]
        · rw [hm1.2]

/-- C4: for every batch built by `insert_with_update` (with distinct column
names and at least one compared column), the statement's SET list assigns
every column except `created_date` to its incoming `excluded` value plus
`modified_date = NOW()`; its WHERE clause is the conjunction, over every
column except `created_date` and `emissions_quantity`, of existing/incoming
equality with `location` via `ST_AsText` on both sides; and its AND clause
is the disjunction, over every column except `created_date`, of inequality,
with `emissions_quantity` null-coalesced to `0.0` and `location` again via
`ST_AsText`. -/
theorem insert_with_update_upsert_clauses (e_data : List Row) (table : String)
    (bs : List Batch) (h : insert_with_update e_data table = some bs)
    (b : Batch) (hb : b ∈ bs) (hnd : b.cols.Nodup)
    (hw : b.cols.filter (fun d => d != "created_date" && d != "emissions_quantity") ≠ []) :
    b.set_stmt = spec_set_statement b.cols
    ∧ b.where_stmt = spec_where_statement table b.cols
    ∧ b.and_stmt = spec_and_statement table b.cols := by
  obtain ⟨-, hmem⟩ := mapBatches_some table (chunks1000 e_data) bs h
  obtain ⟨c, -, hbc⟩ := hmem b hb
  obtain ⟨hcd, heq, hset, hwhere, hand⟩ := buildBatch_fields table c b hbc
  have e1 : b.cols.erase "created_date" = b.cols.filter (fun d => d != "created_date") :=
    List.Nodup.erase_eq_filter hnd _
  have hnd2 : (b.cols.filter (fun d => d != "created_date")).Nodup := hnd.filter _
  have e2 : (b.cols.erase "created_date").erase "emissions_quantity"
      = b.cols.filter (fun d => d != "created_date" && d != "emissions_quantity") := by
    rw [e1, List.Nodup.erase_eq_filter hnd2, List.filter_filter]
    exact List.filter_congr (fun a _ => Bool.and_comm _ _)
  refine ⟨?_, ?_, ?_⟩
  · rw [hset, set_statement_spec]
  · rw [hwhere, e2, where_statement_spec table _ hw]
    rfl
  · have hba : b.cols.filter (fun d => d != "created_date") ≠ [] := by
      intro hnil
      have h0 : (b.cols.erase "created_date").erase "emissions_quantity" = [] := by
        rw [e1, hnil]
        rfl
      rw [e2] at h0
      exact hw h0
    rw [hand, e1, and_statement_spec table _ hba]
    rfl


/-- C4 (witness): the clause theorem applied to the concrete one-row batch
with a geometry column. -/
theorem insert_with_update_upsert_clauses_witness :
    c4_b.set_stmt = spec_set_statement c4_b.cols
    ∧ c4_b.where_stmt = spec_where_statement "country_emissions" c4_b.cols
    ∧ c4_b.and_stmt = spec_and_statement "country_emissions" c4_b.cols :=
  insert_with_update_upsert_clauses [c4_row] "country_emissions" c4_batches rfl
    c4_b (by decide) (by decide) (by decide)

end DataHandlerModel
